import Mathlib

/-!
Shallow embedding of the reservation availability / lifecycle core of the
luxuraystay-hms backend (hotel management system).

Sources embedded:
- `src/controllers/reservation.controller.ts` (`ReservationController`):
  `createReservation`, `checkAvailability`, `updateReservation`,
  `confirmReservation`, `cancelReservation`, `updateReservationStatus`,
  `deleteReservation`.
- `src/models/Reservation.model.ts`: the mongoose schema validators
  (check-in date strictly in the future, check-out after check-in, the
  `status` enum drawn from `ReservationStatus`, guest-count and amount
  bounds).
- `src/types/models.ts`: the `ReservationStatus` and `ReservationSource`
  enum string values (underscore spellings such as "checked_in").
- `src/validations/reservation.validation.ts`: the zod create schema, in
  particular `status: reservationStatusSchema.default('pending')` - the
  caller may supply a status, and it is only defaulted when absent.

Modelling choices:
- Dates are `Int` (epoch-millisecond abstraction); `new Date(x)` is the
  identity and Mongo `$lte`/`$gte` are `≤`/`≥` on `Int`.
- Object ids are `Nat`; the store is a `List Reservation`; `findOne` is
  `List.find?`; `findByIdAndUpdate` is a map over the list applying the
  update to the matching record, returning the updated document
  (`new: true`).
- Statuses are `String`s, because the controller compares raw string
  literals (hyphenated, e.g. "checked-in") against stored values that the
  model enum restricts to the underscore spellings (e.g. "checked_in");
  an inductive status type would erase that distinction.
- HTTP responses are collapsed to result constructors: 409 room conflict,
  400 state-guard rejections, 400 invalid status value, 404 not found,
  and the 500 surfaced when a mongoose validator rejects a write
  (`runValidators: true` is set on every update in the controller).
- Mongoose schemas default to strict mode: paths not declared in the
  schema are silently dropped from constructed documents and from
  `findByIdAndUpdate` update objects. `Reservation.model.ts` declares no
  `isActive`, `deletionReason`, `notes`, `deletedAt`, `confirmedAt`,
  `checkedInAt`, `checkedOutAt`, `cancelledAt` or `cancellationReason`
  path, so the controller's writes to those paths are never persisted;
  the document type below therefore carries only the schema's paths (the
  auto-managed `createdAt` of `timestamps: true` is omitted; nothing
  reads it).
-/

namespace HMS

/-- A reservation document: exactly the paths the `reservationSchema` of
`Reservation.model.ts` declares (`guestId`, `roomId`, `checkInDate`,
`checkOutDate`, `numberOfGuests`, `status`, `totalAmount`,
`depositAmount`, `specialRequests`, `source`, `assignedRoomId`) plus the
`updatedAt` managed by `timestamps: true`. Strict mode strips every other
path the controller tries to write, so no other field can exist on a
stored document. -/
structure Reservation where
  id : Nat
  guestId : Nat
  roomId : Nat
  checkInDate : Int
  checkOutDate : Int
  numberOfGuests : Nat
  status : String
  totalAmount : Int
  depositAmount : Option Int := none
  specialRequests : Option String := none
  source : String := "online"
  assignedRoomId : Option Nat := none
  updatedAt : Int := 0
deriving Repr, DecidableEq

/-- `Object.values(ReservationStatus)` from `src/types/models.ts`:
PENDING = 'pending', CONFIRMED = 'confirmed', CHECKED_IN = 'checked_in',
CHECKED_OUT = 'checked_out', CANCELLED = 'cancelled', NO_SHOW = 'no_show'.
These are the only values the mongoose `enum` validator accepts for the
stored `status` field. -/
def reservationStatusValues : List String :=
  ["pending", "confirmed", "checked_in", "checked_out", "cancelled", "no_show"]

/-- `Object.values(ReservationSource)` from `src/types/models.ts`. -/
def reservationSourceValues : List String :=
  ["online", "phone", "walk_in", "travel_agent"]

/-- The availability conflict test shared by `createReservation`,
`checkAvailability` and `updateReservation`:

    roomId: <roomId>,
    status: { $in: ['confirmed', 'checked-in'] },
    $or: [ { checkInDate: { $lte: checkOutDate },
             checkOutDate: { $gte: checkInDate } } ]

Note the hyphenated literal 'checked-in' and the non-strict `$lte`/`$gte`
comparisons, both taken verbatim from the controller. -/
def availabilityConflict (roomId : Nat) (checkInDate checkOutDate : Int)
    (r : Reservation) : Bool :=
  r.roomId == roomId &&
  (r.status == "confirmed" || r.status == "checked-in") &&
  (decide (r.checkInDate ≤ checkOutDate) && decide (r.checkOutDate ≥ checkInDate))

/-- `Reservation.findById(id)` / the `_id` lookup. -/
def findById (store : List Reservation) (id : Nat) : Option Reservation :=
  store.find? (fun r => r.id == id)

/-- `Reservation.findByIdAndUpdate(id, upd, { new: true })`: apply the
update to the matching record in place. -/
def updateById (store : List Reservation) (id : Nat)
    (f : Reservation → Reservation) : List Reservation :=
  store.map (fun r => if r.id == id then f r else r)

/-- The document-level validation run by mongoose on `save()`
(`Reservation.model.ts`): check-in date strictly after the current time,
check-out date strictly after check-in, guest count in [1,10], `status`
in the enum, non-negative total, deposit absent or zero or at most the
total, `source` in its enum. -/
def mongooseValidateSave (now : Int) (r : Reservation) : Bool :=
  decide (r.checkInDate > now) &&
  decide (r.checkOutDate > r.checkInDate) &&
  (decide (1 ≤ r.numberOfGuests) && decide (r.numberOfGuests ≤ 10)) &&
  reservationStatusValues.contains r.status &&
  decide (r.totalAmount ≥ 0) &&
  (match r.depositAmount with
   | none => true
   | some d => decide (0 ≤ d) && (d == 0 || decide (d ≤ r.totalAmount))) &&
  reservationSourceValues.contains r.source

/-- The request body for `POST /api/reservations`, after the zod
`reservationSchema` parse: `status` is optional and the schema only
supplies 'pending' as a default when the caller omits it. -/
structure CreateInput where
  guestId : Nat
  roomId : Nat
  checkInDate : Int
  checkOutDate : Int
  numberOfGuests : Nat
  totalAmount : Int
  depositAmount : Option Int := none
  source : String := "online"
  status : Option String := none
  isActive : Bool := true
deriving Repr, DecidableEq

/-- Fresh id generation for a saved document. -/
def freshId (store : List Reservation) : Nat :=
  (store.map Reservation.id).foldr max 0 + 1

inductive CreateResult
  | created (r : Reservation)
  | conflict
  | validationError
deriving Repr, DecidableEq

/-- `new Reservation(reservationData)`: the document built from the
(zod-parsed) request body, with a fresh id and the status default. The
body's `isActive` (a zod-only field) is not a schema path, so the
constructor strips it: the built document carries schema paths only. -/
def buildReservation (store : List Reservation) (input : CreateInput) : Reservation :=
  { id := freshId store
    guestId := input.guestId
    roomId := input.roomId
    checkInDate := input.checkInDate
    checkOutDate := input.checkOutDate
    numberOfGuests := input.numberOfGuests
    status := input.status.getD "pending"
    totalAmount := input.totalAmount
    depositAmount := input.depositAmount
    source := input.source }

/-- `ReservationController.createReservation`: first the availability
`findOne` (409 on a hit), then `new Reservation(body).save()` which runs
the schema validators; on success the document is persisted with the
caller-supplied status if present, else the zod/schema default 'pending'. -/
def createReservation (now : Int) (store : List Reservation)
    (input : CreateInput) : CreateResult × List Reservation :=
  match store.find?
      (availabilityConflict input.roomId input.checkInDate input.checkOutDate) with
  | some _ => (.conflict, store)
  | none =>
    if mongooseValidateSave now (buildReservation store input) then
      (.created (buildReservation store input), store ++ [buildReservation store input])
    else (.validationError, store)

/-- Response of `GET /api/reservations/availability`. -/
structure AvailabilityResponse where
  available : Bool
  conflictingReservation : Option Nat
deriving Repr, DecidableEq

/-- `ReservationController.checkAvailability`: same `findOne` as create;
`available` is the negation of a hit, and the conflicting id is reported. -/
def checkAvailability (store : List Reservation) (roomId : Nat)
    (checkInDate checkOutDate : Int) : AvailabilityResponse :=
  match store.find? (availabilityConflict roomId checkInDate checkOutDate) with
  | some r => { available := false, conflictingReservation := some r.id }
  | none => { available := true, conflictingReservation := none }

/-- Outcome of a lifecycle operation, keyed to the controller's distinct
responses: `ok` (the updated document, `new: true`), `notFound` (404),
`invalidState` (the 400 state-guard messages), `invalidStatus` (the 400
'Invalid status value' message of `updateReservationStatus`), `conflict`
(the 409 availability message), `validationFailed` (a mongoose
`runValidators` rejection surfacing through the catch block as 500). -/
inductive OpResult
  | ok (r : Reservation)
  | notFound
  | invalidState
  | invalidStatus
  | conflict
  | validationFailed
deriving Repr, DecidableEq

/-- The body of `PUT /api/reservations/:id` after the zod
`reservationUpdateSchema` parse (all fields optional; `guestId`/`roomId`
are omitted by that schema for `guestId`, but `roomId` is read by the
controller from the raw body, so it is kept here). Only the fields the
controller's availability logic consults, plus `status`, are modelled. -/
structure UpdatePatch where
  roomId : Option Nat := none
  checkInDate : Option Int := none
  checkOutDate : Option Int := none
  numberOfGuests : Option Nat := none
  totalAmount : Option Int := none
  status : Option String := none
  notes : Option String := none
deriving Repr, DecidableEq

/-- `{ ...updateData, updatedAt: new Date() }` applied to a document.
The body's `notes` is not a schema path and is stripped by strict mode;
only schema paths are written. The `runValidators` outcome of this write
is not modelled: no claim consults what happens after the PUT's conflict
check, which is the part the claims are about. -/
def applyPatch (now : Int) (p : UpdatePatch) (x : Reservation) : Reservation :=
  { x with
    roomId := p.roomId.getD x.roomId
    checkInDate := p.checkInDate.getD x.checkInDate
    checkOutDate := p.checkOutDate.getD x.checkOutDate
    numberOfGuests := p.numberOfGuests.getD x.numberOfGuests
    totalAmount := p.totalAmount.getD x.totalAmount
    status := p.status.getD x.status
    updatedAt := now }

/-- `ReservationController.updateReservation`: when the patch touches
`roomId`, `checkInDate` or `checkOutDate`, fetch the current document,
merge patch over current (`updateData.x || currentReservation.x`) and run
the availability `findOne` with `_id: { $ne: id }` excluding the
reservation itself; 409 on a hit, otherwise apply the patch. -/
def updateReservation (now : Int) (store : List Reservation) (id : Nat)
    (p : UpdatePatch) : OpResult × List Reservation :=
  if p.roomId.isSome || p.checkInDate.isSome || p.checkOutDate.isSome then
    match findById store id with
    | none => (.notFound, store)
    | some cur =>
      let roomId := p.roomId.getD cur.roomId
      let ci := p.checkInDate.getD cur.checkInDate
      let co := p.checkOutDate.getD cur.checkOutDate
      match store.find? (fun r => !(r.id == id) && availabilityConflict roomId ci co r) with
      | some _ => (.conflict, store)
      | none => (.ok (applyPatch now p cur), updateById store id (applyPatch now p))
  else
    match findById store id with
    | none => (.notFound, store)
    | some cur => (.ok (applyPatch now p cur), updateById store id (applyPatch now p))

/-- `ReservationController.confirmReservation`: 404 when the id is
unknown; 400 'Only pending reservations can be confirmed' when the status
is not `ReservationStatus.PENDING`; otherwise `findByIdAndUpdate` with
`status: 'confirmed'`, `confirmedAt` and `updatedAt`. `confirmedAt` is
not a schema path, so strict mode strips it: only `status` and
`updatedAt` are persisted (and returned, `new: true`). No availability
query is issued. -/
def confirmReservation (now : Int) (store : List Reservation) (id : Nat) :
    OpResult × List Reservation :=
  match findById store id with
  | none => (.notFound, store)
  | some r =>
    if !(r.status == "pending") then (.invalidState, store)
    else
      let f := fun (x : Reservation) =>
        { x with status := "confirmed", updatedAt := now }
      (.ok (f r), updateById store id f)

/-- `ReservationController.cancelReservation`: 404 when unknown; 400 when
`['cancelled', 'checked-out'].includes(reservation.status)` (note the
hyphenated 'checked-out' literal); otherwise `findByIdAndUpdate` with
`status: 'cancelled'`, `cancellationReason`, `cancelledAt` and
`updatedAt`. The reason and timestamp are not schema paths and are
stripped by strict mode: only `status` and `updatedAt` persist. -/
def cancelReservation (now : Int) (store : List Reservation) (id : Nat)
    (reason : String) : OpResult × List Reservation :=
  match findById store id with
  | none => (.notFound, store)
  | some r =>
    if ["cancelled", "checked-out"].contains r.status then (.invalidState, store)
    else
      let f := fun (x : Reservation) =>
        { x with status := "cancelled", updatedAt := now }
      (.ok (f r), updateById store id f)

/-- The `validStatuses` array hard-coded in
`ReservationController.updateReservationStatus` (hyphenated spellings). -/
def controllerValidStatuses : List String :=
  ["pending", "confirmed", "checked-in", "checked-out", "cancelled", "no-show"]

/-- The update document built by `updateReservationStatus`: the new
status, `updatedAt`, and a status-specific timestamp
(`confirmedAt`/`checkedInAt`/`checkedOutAt`/`cancelledAt`). None of the
timestamps is a schema path — strict mode strips them all — so the
persisted effect is `status` and `updatedAt` only. -/
def statusUpdateData (now : Int) (status : String) (x : Reservation) : Reservation :=
  { x with status := status, updatedAt := now }

/-- `ReservationController.updateReservationStatus`: 400 'Invalid status
value' unless the requested status is in the controller's hyphenated
`validStatuses` list; then `findByIdAndUpdate` with
`runValidators: true`, so the schema's `enum: Object.values(ReservationStatus)`
validator (underscore spellings) rejects the write before any document is
matched; then 404 when the id is unknown; otherwise the status and its
timestamp are set with no check of the current state. -/
def updateReservationStatus (now : Int) (store : List Reservation) (id : Nat)
    (status : String) : OpResult × List Reservation :=
  if !(controllerValidStatuses.contains status) then (.invalidStatus, store)
  else if !(reservationStatusValues.contains status) then (.validationFailed, store)
  else
    match findById store id with
    | none => (.notFound, store)
    | some r => (.ok (statusUpdateData now status r),
                 updateById store id (statusUpdateData now status))

/-- `ReservationController.deleteReservation` (soft delete): 404 when
unknown; 400 'Only cancelled or pending reservations can be deleted'
unless `['cancelled', 'pending'].includes(reservation.status)`; otherwise
`findByIdAndUpdate` with `isActive: false`, `deletionReason`, `notes`,
`deletedAt`, `updatedAt`. The schema declares none of
`isActive`/`deletionReason`/`notes`/`deletedAt`, so strict mode strips
all of them: the "soft delete" persists nothing but `updatedAt`. The
`reason`/`n` arguments are the request-body fields the controller reads
and passes into the (stripped) update. -/
def deleteReservation (now : Int) (store : List Reservation) (id : Nat)
    (reason : String) (n : Option String) : OpResult × List Reservation :=
  match findById store id with
  | none => (.notFound, store)
  | some r =>
    if !(["cancelled", "pending"].contains r.status) then (.invalidState, store)
    else
      let f := fun (x : Reservation) => { x with updatedAt := now }
      (.ok (f r), updateById store id f)

/-! ## Helper lemmas -/

/-- The availability predicate, spelled as a proposition. -/
theorem availabilityConflict_iff (roomId : Nat) (ci co : Int) (r : Reservation) :
    availabilityConflict roomId ci co r = true ↔
      r.roomId = roomId ∧ (r.status = "confirmed" ∨ r.status = "checked-in") ∧
        r.checkInDate ≤ co ∧ r.checkOutDate ≥ ci := by
  simp [availabilityConflict, and_assoc]

/-- `checkAvailability` reports unavailability exactly when the
availability `findOne` produces a hit. -/
theorem available_false_iff (store : List Reservation) (roomId : Nat) (ci co : Int) :
    (checkAvailability store roomId ci co).available = false ↔
      (store.find? (availabilityConflict roomId ci co)).isSome = true := by
  unfold checkAvailability
  cases h : store.find? (availabilityConflict roomId ci co) <;> simp

/-- `createReservation` returns the 409 conflict exactly when the
availability `findOne` produces a hit. -/
theorem create_conflict_iff (now : Int) (store : List Reservation) (input : CreateInput) :
    (createReservation now store input).1 = CreateResult.conflict ↔
      (store.find?
        (availabilityConflict input.roomId input.checkInDate input.checkOutDate)).isSome
        = true := by
  unfold createReservation
  cases h : store.find?
      (availabilityConflict input.roomId input.checkInDate input.checkOutDate)
  · simp only [Option.isSome_none]
    split <;> simp
  · simp

/-- Every member of a list is bounded by its `foldr max 0`. -/
theorem le_foldr_max (l : List Nat) (x : Nat) (hx : x ∈ l) : x ≤ l.foldr max 0 := by
  induction l with
  | nil => cases hx
  | cons a t ih =>
    rcases List.mem_cons.mp hx with rfl | h
    · exact le_max_left _ _
    · exact le_trans (ih h) (le_max_right _ _)

/-- `freshId` never collides with an id already in the store. -/
theorem freshId_not_mem (store : List Reservation) (x : Reservation) (hx : x ∈ store) :
    ¬x.id = freshId store := by
  intro h
  have hle : x.id ≤ (store.map Reservation.id).foldr max 0 :=
    le_foldr_max _ _ (List.mem_map_of_mem _ hx)
  unfold freshId at h
  omega

/-! ## Claims -/

/-- C1. The claim asserts the half-open rule (conflict iff
`existing.checkInDate < requested.checkOutDate` and
`existing.checkOutDate > requested.checkInDate`) and in particular that a
request starting exactly on an existing checkout date is reported
available and creates successfully. Counterexample: room 101 holds a
confirmed reservation on [100, 200]; the request [200, 300] starts
exactly on the existing checkout date, yet `checkAvailability` reports
`available = false` and `createReservation` returns the 409 conflict with
the store unchanged. -/
theorem adjacency_request_conflicts :
    (checkAvailability
      [{ id := 1, guestId := 1, roomId := 101, checkInDate := 100, checkOutDate := 200,
         numberOfGuests := 2, status := "confirmed", totalAmount := 500 }] 101 200 300).available
        = false ∧
    (createReservation 0
      [{ id := 1, guestId := 1, roomId := 101, checkInDate := 100, checkOutDate := 200,
         numberOfGuests := 2, status := "confirmed", totalAmount := 500 }]
      { guestId := 2, roomId := 101, checkInDate := 200, checkOutDate := 300,
        numberOfGuests := 1, totalAmount := 100 }).1 = CreateResult.conflict := by
  exact ⟨rfl, rfl⟩

/-- C1 (amended). The availability check used by `createReservation` and
`checkAvailability` reports a conflict iff some reservation for the room
with status 'confirmed' or (the unmatchable literal) 'checked-in'
satisfies the closed-interval test `existing.checkInDate ≤
requested.checkOutDate` and `existing.checkOutDate ≥
requested.checkInDate`; hence a request starting exactly on an existing
checkout date IS reported as a conflict (back-to-back booking is
rejected). -/
theorem availability_closed_interval_rule (store : List Reservation) :
    (∀ (roomId : Nat) (ci co : Int),
      ((checkAvailability store roomId ci co).available = false ↔
        ∃ r ∈ store, r.roomId = roomId ∧
          (r.status = "confirmed" ∨ r.status = "checked-in") ∧
          r.checkInDate ≤ co ∧ r.checkOutDate ≥ ci)) ∧
    (∀ (now : Int) (input : CreateInput),
      ((createReservation now store input).1 = CreateResult.conflict ↔
        ∃ r ∈ store, r.roomId = input.roomId ∧
          (r.status = "confirmed" ∨ r.status = "checked-in") ∧
          r.checkInDate ≤ input.checkOutDate ∧ r.checkOutDate ≥ input.checkInDate)) := by
  constructor
  · intro roomId ci co
    rw [available_false_iff, List.find?_isSome]
    simp only [availabilityConflict_iff]
  · intro now input
    rw [create_conflict_iff, List.find?_isSome]
    simp only [availabilityConflict_iff]

/-- C2. The claim asserts that an overlapping reservation in status
'checked_in' always blocks `createReservation` and `checkAvailability`.
In the code the availability query filters
`status: { $in: ['confirmed', 'checked-in'] }` with a hyphenated literal,
while the schema enum (`Object.values(ReservationStatus)`) only permits
the underscore spelling 'checked_in' to be stored. Evaluation at the
failing input: a reservation with status 'checked_in' on room 101,
[100, 200] is accepted for persistence (so such stores are reachable),
yet the overlapping request [150, 250] is reported available and a
second create succeeds instead of returning the 409 conflict. -/
theorem checked_in_reservation_does_not_block :
    ((createReservation 50 []
        { guestId := 1, roomId := 101, checkInDate := 100, checkOutDate := 200,
          numberOfGuests := 2, totalAmount := 500,
          status := some "checked_in" }).2.map Reservation.status = ["checked_in"]) ∧
    ((checkAvailability
        (createReservation 50 []
          { guestId := 1, roomId := 101, checkInDate := 100, checkOutDate := 200,
            numberOfGuests := 2, totalAmount := 500,
            status := some "checked_in" }).2 101 150 250).available = true) ∧
    ((createReservation 50
        (createReservation 50 []
          { guestId := 1, roomId := 101, checkInDate := 100, checkOutDate := 200,
            numberOfGuests := 2, totalAmount := 500,
            status := some "checked_in" }).2
        { guestId := 2, roomId := 101, checkInDate := 150, checkOutDate := 250,
          numberOfGuests := 1, totalAmount := 300 }).1 ≠ CreateResult.conflict) := by
  refine ⟨rfl, rfl, by decide⟩

/-- C3. The claim asserts that `confirm(id)` re-runs the availability
check and fails with `ConflictError` whenever another active reservation
overlaps. Counterexample: reservation 1 is pending on room 101,
[100, 200]; reservation 2 is confirmed on room 101, [150, 250]
(overlapping). `confirmReservation` nevertheless succeeds, storing status
'confirmed' for reservation 1 — no conflict is ever reported. -/
theorem confirm_ignores_overlap :
    ((confirmReservation 7
        [{ id := 1, guestId := 1, roomId := 101, checkInDate := 100, checkOutDate := 200,
           numberOfGuests := 2, status := "pending", totalAmount := 500 },
         { id := 2, guestId := 2, roomId := 101, checkInDate := 150, checkOutDate := 250,
           numberOfGuests := 1, status := "confirmed", totalAmount := 300 }] 1).1
      ≠ OpResult.conflict) ∧
    (((confirmReservation 7
        [{ id := 1, guestId := 1, roomId := 101, checkInDate := 100, checkOutDate := 200,
           numberOfGuests := 2, status := "pending", totalAmount := 500 },
         { id := 2, guestId := 2, roomId := 101, checkInDate := 150, checkOutDate := 250,
           numberOfGuests := 1, status := "confirmed", totalAmount := 300 }] 1).2.map
        Reservation.status) = ["confirmed", "confirmed"]) := by
  exact ⟨by decide, rfl⟩

/-- C3 (amended). `confirm(id)` fails with `InvalidStateError` unless the
current status is 'pending'; when the status is 'pending' it
unconditionally sets status 'confirmed', performing no availability
re-check: it succeeds even when other active reservations overlap the
reservation's room and dates. The confirmation timestamp the controller
attempts to write (`confirmedAt`) is not a schema path and is stripped by
strict mode, so only `status` and `updatedAt` are persisted — no
confirmation timestamp is recorded. -/
theorem confirm_pending_unconditional (now : Int) (store : List Reservation)
    (id : Nat) (r : Reservation) (hfind : findById store id = some r)
    (hp : r.status = "pending") :
    confirmReservation now store id =
      (.ok { r with status := "confirmed", updatedAt := now },
       updateById store id (fun x =>
         { x with status := "confirmed", updatedAt := now })) := by
  unfold confirmReservation
  rw [hfind]
  simp [hp]

/-- Witness for C3's amended theorem at a concrete pending reservation
with an overlapping confirmed one. -/
theorem confirm_pending_unconditional_witness :
    confirmReservation 7
      [{ id := 1, guestId := 1, roomId := 101, checkInDate := 100, checkOutDate := 200,
         numberOfGuests := 2, status := "pending", totalAmount := 500 },
       { id := 2, guestId := 2, roomId := 101, checkInDate := 150, checkOutDate := 250,
         numberOfGuests := 1, status := "confirmed", totalAmount := 300 }] 1 =
      (.ok { id := 1, guestId := 1, roomId := 101, checkInDate := 100, checkOutDate := 200,
             numberOfGuests := 2, status := "confirmed", totalAmount := 500,
             updatedAt := 7 },
       [{ id := 1, guestId := 1, roomId := 101, checkInDate := 100, checkOutDate := 200,
          numberOfGuests := 2, status := "confirmed", totalAmount := 500,
          updatedAt := 7 },
        { id := 2, guestId := 2, roomId := 101, checkInDate := 150, checkOutDate := 250,
          numberOfGuests := 1, status := "confirmed", totalAmount := 300 }]) := by
  rw [confirm_pending_unconditional 7 _ 1
    { id := 1, guestId := 1, roomId := 101, checkInDate := 100, checkOutDate := 200,
      numberOfGuests := 2, status := "pending", totalAmount := 500 } (by decide) rfl]
  decide

/-- C4. The claim asserts `updateStatus` accepts each of the six
enumerated `ReservationStatus` values. The controller's `validStatuses`
list uses hyphenated spellings, so the enumerated values 'checked_in',
'checked_out' and 'no_show' are rejected as 'Invalid status value', while
the hyphenated 'checked-in' passes the controller check only to be
rejected by the schema's enum validator (`runValidators: true`).
Evaluated on a store holding one pending reservation with id 1. -/
theorem update_status_rejects_enum_values :
    ((updateReservationStatus 0
        [{ id := 1, guestId := 1, roomId := 101, checkInDate := 100, checkOutDate := 200,
           numberOfGuests := 2, status := "pending", totalAmount := 500 }] 1 "checked_in").1
      = OpResult.invalidStatus) ∧
    ((updateReservationStatus 0
        [{ id := 1, guestId := 1, roomId := 101, checkInDate := 100, checkOutDate := 200,
           numberOfGuests := 2, status := "pending", totalAmount := 500 }] 1 "checked_out").1
      = OpResult.invalidStatus) ∧
    ((updateReservationStatus 0
        [{ id := 1, guestId := 1, roomId := 101, checkInDate := 100, checkOutDate := 200,
           numberOfGuests := 2, status := "pending", totalAmount := 500 }] 1 "no_show").1
      = OpResult.invalidStatus) ∧
    ((updateReservationStatus 0
        [{ id := 1, guestId := 1, roomId := 101, checkInDate := 100, checkOutDate := 200,
           numberOfGuests := 2, status := "pending", totalAmount := 500 }] 1 "checked-in").1
      = OpResult.validationFailed) := by
  exact ⟨rfl, rfl, rfl, rfl⟩

/-- C5. The claim asserts `cancel(id, reason)` fails with
`InvalidStateError` exactly when the current status is 'cancelled' or
'checked_out'. The code's guard compares against the hyphenated literal
'checked-out', which the schema enum makes unstorable, so a reservation
stored as 'checked_out' is NOT rejected: the cancel succeeds and the
stored status becomes 'cancelled', with reason and timestamp recorded. -/
theorem cancel_succeeds_on_checked_out :
    ((cancelReservation 3
        [{ id := 1, guestId := 1, roomId := 101, checkInDate := 100, checkOutDate := 200,
           numberOfGuests := 2, status := "checked_out", totalAmount := 500 }] 1 "why").1
      ≠ OpResult.invalidState) ∧
    (((cancelReservation 3
        [{ id := 1, guestId := 1, roomId := 101, checkInDate := 100, checkOutDate := 200,
           numberOfGuests := 2, status := "checked_out", totalAmount := 500 }] 1 "why").2.map
        Reservation.status) = ["cancelled"]) := by
  exact ⟨by decide, rfl⟩

/-- C7. Confirming a reservation whose current status is not 'pending'
(for example one already confirmed) fails with the invalid-state 400
'Only pending reservations can be confirmed' and leaves the store
entirely unchanged: no field of any record is mutated. -/
theorem confirm_non_pending_rejected (now : Int) (store : List Reservation)
    (id : Nat) (r : Reservation) (hfind : findById store id = some r)
    (hnp : ¬r.status = "pending") :
    confirmReservation now store id = (.invalidState, store) := by
  unfold confirmReservation
  rw [hfind]
  simp [hnp]

/-- Witness for C7 at an already-confirmed reservation. -/
theorem confirm_non_pending_rejected_witness :
    confirmReservation 9
      [{ id := 4, guestId := 1, roomId := 7, checkInDate := 10, checkOutDate := 20,
         numberOfGuests := 1, status := "confirmed", totalAmount := 50 }] 4 =
      (.invalidState,
       [{ id := 4, guestId := 1, roomId := 7, checkInDate := 10, checkOutDate := 20,
          numberOfGuests := 1, status := "confirmed", totalAmount := 50 }]) := by
  exact confirm_non_pending_rejected 9 _ 4
    { id := 4, guestId := 1, roomId := 7, checkInDate := 10, checkOutDate := 20,
      numberOfGuests := 1, status := "confirmed", totalAmount := 50 }
    (by decide) (by decide)

/-- C6. The claim asserts that a successful soft delete sets
`isActive = false` and stores the `deletionReason` on the persisted
record. The status guard is real (deletion is allowed exactly for
'pending'/'cancelled', and a 'checked_in'/'checked_out' reservation is
rejected with the store unchanged), but the controller's own comment
'Soft delete by updating isActive to false' is not what the program does:
the Reservation schema declares no `isActive`, `deletionReason`, `notes`
or `deletedAt` path, so mongoose strict mode strips the whole update and
the "successful" delete persists nothing but `updatedAt` — the record is
never deactivated. Evaluated here: deleting a pending reservation
returns ok yet the stored document only gains `updatedAt = 4`, while
deleting a checked-in reservation is rejected with the store unchanged. -/
theorem soft_delete_persists_nothing :
    (deleteReservation 4
        [{ id := 1, guestId := 1, roomId := 5, checkInDate := 10, checkOutDate := 20,
           numberOfGuests := 1, status := "pending", totalAmount := 50 }] 1 "dup" none =
      (.ok { id := 1, guestId := 1, roomId := 5, checkInDate := 10, checkOutDate := 20,
             numberOfGuests := 1, status := "pending", totalAmount := 50, updatedAt := 4 },
       [{ id := 1, guestId := 1, roomId := 5, checkInDate := 10, checkOutDate := 20,
          numberOfGuests := 1, status := "pending", totalAmount := 50, updatedAt := 4 }])) ∧
    (deleteReservation 4
        [{ id := 2, guestId := 1, roomId := 5, checkInDate := 10, checkOutDate := 20,
           numberOfGuests := 1, status := "checked_in", totalAmount := 50 }] 2 "dup" none =
      (.invalidState,
       [{ id := 2, guestId := 1, roomId := 5, checkInDate := 10, checkOutDate := 20,
          numberOfGuests := 1, status := "checked_in", totalAmount := 50 }])) := by
  exact ⟨rfl, rfl⟩

/-- C8. When an update patches a reservation's own dates (room
unchanged), the availability re-check excludes the reservation's own id
and evaluates the merged (existing + patch) values: the 409 conflict is
returned exactly when a DIFFERENT reservation for the same room with
active status overlaps the merged dates, so the reservation can never
conflict with itself. -/
theorem update_own_dates_excludes_self (now : Int) (store : List Reservation)
    (id : Nat) (p : UpdatePatch) (cur : Reservation)
    (hfind : findById store id = some cur) (hroom : p.roomId = none)
    (hdates : p.checkInDate.isSome ∨ p.checkOutDate.isSome) :
    ((updateReservation now store id p).1 = OpResult.conflict ↔
      ∃ r ∈ store, ¬r.id = id ∧ r.roomId = cur.roomId ∧
        (r.status = "confirmed" ∨ r.status = "checked-in") ∧
        r.checkInDate ≤ p.checkOutDate.getD cur.checkOutDate ∧
        r.checkOutDate ≥ p.checkInDate.getD cur.checkInDate) := by
  have hguard : (p.roomId.isSome || p.checkInDate.isSome || p.checkOutDate.isSome) = true := by
    rcases hdates with h | h <;> simp [h]
  unfold updateReservation
  rw [hguard]
  simp only [if_true]
  rw [hfind]
  simp only [hroom, Option.getD_none]
  cases h : store.find? (fun r =>
      !(r.id == id) && availabilityConflict cur.roomId
        (p.checkInDate.getD cur.checkInDate) (p.checkOutDate.getD cur.checkOutDate) r) with
  | none =>
    have hnone := List.find?_eq_none.mp h
    simp only [h]
    constructor
    · intro hc
      exact absurd hc (by simp)
    · rintro ⟨r, hr, hne, hrm, hst, hci, hco⟩
      have hb : (!(r.id == id) && availabilityConflict cur.roomId
          (p.checkInDate.getD cur.checkInDate) (p.checkOutDate.getD cur.checkOutDate) r)
          = true := by
        simp only [Bool.and_eq_true, Bool.not_eq_true', beq_eq_false_iff_ne, ne_eq,
          availabilityConflict_iff]
        exact ⟨hne, hrm, hst, hci, hco⟩
      exact absurd hb (hnone r hr)
  | some a =>
    have hb := List.find?_some h
    simp only [Bool.and_eq_true, Bool.not_eq_true', beq_eq_false_iff_ne, ne_eq,
      availabilityConflict_iff] at hb
    simp only [h]
    constructor
    · intro _
      exact ⟨a, List.mem_of_find?_eq_some h, hb.1, hb.2.1, hb.2.2.1, hb.2.2.2.1, hb.2.2.2.2⟩
    · intro _
      trivial

/-- Witness for C8: with the store holding only the reservation itself
(confirmed, room 5), patching its own dates reports no conflict. -/
theorem update_own_dates_excludes_self_witness :
    (updateReservation 0
        [{ id := 1, guestId := 1, roomId := 5, checkInDate := 100, checkOutDate := 200,
           numberOfGuests := 1, status := "confirmed", totalAmount := 50 }] 1
        { checkInDate := some 120, checkOutDate := some 260 }).1 ≠ OpResult.conflict := by
  intro hc
  rcases (update_own_dates_excludes_self 0
      [{ id := 1, guestId := 1, roomId := 5, checkInDate := 100, checkOutDate := 200,
         numberOfGuests := 1, status := "confirmed", totalAmount := 50 }] 1
      { checkInDate := some 120, checkOutDate := some 260 }
      { id := 1, guestId := 1, roomId := 5, checkInDate := 100, checkOutDate := 200,
        numberOfGuests := 1, status := "confirmed", totalAmount := 50 }
      (by decide) rfl (Or.inl rfl)).mp hc with ⟨r, hr, hne, -⟩
  rcases List.mem_singleton.mp hr with rfl
  exact hne rfl

/-- C9. The claim asserts the persisted reservation always has status
'pending' regardless of what the caller supplied. Counterexample: the zod
schema only DEFAULTS `status` to 'pending'; a caller-supplied
`status: 'confirmed'` passes both the zod enum and the schema enum, so
the create succeeds (neither a validation error nor a conflict) and the
persisted reservation carries status 'confirmed'. -/
theorem create_keeps_caller_status :
    ((createReservation 10 ([] : List Reservation)
        { guestId := 1, roomId := 101, checkInDate := 100, checkOutDate := 200,
          numberOfGuests := 2, totalAmount := 500,
          status := some "confirmed" }).2.map Reservation.status = ["confirmed"]) ∧
    ((createReservation 10 ([] : List Reservation)
        { guestId := 1, roomId := 101, checkInDate := 100, checkOutDate := 200,
          numberOfGuests := 2, totalAmount := 500,
          status := some "confirmed" }).1 ≠ CreateResult.validationError) ∧
    ((createReservation 10 ([] : List Reservation)
        { guestId := 1, roomId := 101, checkInDate := 100, checkOutDate := 200,
          numberOfGuests := 2, totalAmount := 500,
          status := some "confirmed" }).1 ≠ CreateResult.conflict) := by
  exact ⟨rfl, by decide, by decide⟩

/-- C9 (amended). Every create either fails (conflict or validation
error) leaving the store unchanged, or succeeds appending a reservation
whose id is freshly generated (distinct from every id in the store) and
whose status is the caller-supplied value when present, defaulting to
'pending' when absent; accepted inputs satisfy
`checkOutDate > checkInDate`. -/
theorem create_outcome_spec (now : Int) (store : List Reservation)
    (input : CreateInput) :
    ((createReservation now store input).1 = CreateResult.conflict →
      (createReservation now store input).2 = store) ∧
    ((createReservation now store input).1 = CreateResult.validationError →
      (createReservation now store input).2 = store) ∧
    (∀ r, (createReservation now store input).1 = CreateResult.created r →
      (createReservation now store input).2 = store ++ [r] ∧
      r.status = input.status.getD "pending" ∧
      r.id = freshId store ∧ (∀ x ∈ store, ¬x.id = r.id) ∧
      r.checkOutDate > r.checkInDate) := by
  unfold createReservation
  cases h : store.find?
      (availabilityConflict input.roomId input.checkInDate input.checkOutDate) with
  | some a => exact ⟨fun _ => rfl, by simp, by simp⟩
  | none =>
    by_cases hv : mongooseValidateSave now (buildReservation store input) = true
    · simp only [hv, if_true]
      refine ⟨by simp, by simp, fun r hr => ?_⟩
      have hre : buildReservation store input = r := by
        injection hr
      subst hre
      refine ⟨rfl, rfl, rfl, ?_, ?_⟩
      · intro x hx
        exact freshId_not_mem store x hx
      · simp only [mongooseValidateSave, Bool.and_eq_true, decide_eq_true_eq] at hv
        exact hv.1.1.1.1.1.2
    · simp only [hv, if_false]
      exact ⟨by simp, fun _ => rfl, by simp⟩

/-- Witness for C9's amended theorem: a successful create on the empty
store persists exactly the built document with default status 'pending'. -/
theorem create_outcome_spec_witness :
    (createReservation 10 ([] : List Reservation)
      { guestId := 3, roomId := 8, checkInDate := 100, checkOutDate := 200,
        numberOfGuests := 2, totalAmount := 500 }).2 =
      [] ++ [{ id := 1, guestId := 3, roomId := 8, checkInDate := 100, checkOutDate := 200,
               numberOfGuests := 2, status := "pending", totalAmount := 500 }] := by
  exact ((create_outcome_spec 10 []
    { guestId := 3, roomId := 8, checkInDate := 100, checkOutDate := 200,
      numberOfGuests := 2, totalAmount := 500 }).2.2
    { id := 1, guestId := 3, roomId := 8, checkInDate := 100, checkOutDate := 200,
      numberOfGuests := 2, status := "pending", totalAmount := 500 } rfl).1

/-- C10. Every reservation accepted for persistence satisfies
`checkInDate` strictly later than the wall-clock instant of validation
(the schema validator `value > new Date()`): a create whose check-in date
is in the past or at the present moment is never persisted — the store is
left unchanged and the call is rejected (with the validation error
whenever the availability check has not already reported a conflict). -/
theorem create_requires_future_checkin (now : Int) (store : List Reservation)
    (input : CreateInput) :
    (∀ r, (createReservation now store input).1 = CreateResult.created r →
      r.checkInDate > now) ∧
    (input.checkInDate ≤ now →
      (createReservation now store input).2 = store ∧
      ((createReservation now store input).1 = CreateResult.conflict ∨
       (createReservation now store input).1 = CreateResult.validationError) ∧
      (store.find? (availabilityConflict input.roomId input.checkInDate
          input.checkOutDate) = none →
        (createReservation now store input).1 = CreateResult.validationError)) := by
  unfold createReservation
  cases h : store.find?
      (availabilityConflict input.roomId input.checkInDate input.checkOutDate) with
  | some a =>
    exact ⟨fun r hr => absurd hr (by simp), fun _ => ⟨rfl, Or.inl rfl, by simp⟩⟩
  | none =>
    by_cases hv : mongooseValidateSave now (buildReservation store input) = true
    · simp only [hv, if_true]
      have hgt : input.checkInDate > now := by
        simp only [mongooseValidateSave, Bool.and_eq_true, decide_eq_true_eq] at hv
        exact hv.1.1.1.1.1.1
      constructor
      · intro r hr
        have hre : buildReservation store input = r := by
          injection hr
        subst hre
        exact hgt
      · intro hle
        exact absurd hgt (by omega)
    · simp only [hv, if_false]
      exact ⟨fun r hr => absurd hr (by simp), fun _ => ⟨rfl, Or.inr rfl, fun _ => rfl⟩⟩

/-- Witness for C10: a create whose check-in date (50) is not after the
validation instant (100) is rejected with the validation error. -/
theorem create_requires_future_checkin_witness :
    (createReservation 100 ([] : List Reservation)
      { guestId := 1, roomId := 2, checkInDate := 50, checkOutDate := 70,
        numberOfGuests := 1, totalAmount := 10 }).1 = CreateResult.validationError := by
  exact ((create_requires_future_checkin 100 []
    { guestId := 1, roomId := 2, checkInDate := 50, checkOutDate := 70,
      numberOfGuests := 1, totalAmount := 10 }).2 (by decide)).2.2 rfl

end HMS
